import Mathlib

/-!
Verification of the n64js memory-mapped device subsystem: a shallow
embedding of the SP (signal processor) register/DMA engine
(`src/devices/sp.js`), the SP memory device with its broken sub-word
stores, and the VI (video interface) timing engine
(`src/devices/vi.js`).

Registers are modelled as a word-granularity map from byte offset to
stored 32-bit value (all register accesses in the source use 4-byte
aligned offsets); RDRAM and SP memory are byte maps.  The backing
`MemoryRegion` helpers (`getU32`, `set32`, `set32masked`, `setBits32`,
`clearBits32`) live in a file that is not part of the extracted
sources, so they are modelled from the spec (section 3): `set32masked`
only updates the bits selected by the mask, `setBits32`/`clearBits32`
or in / mask out the given bits.  External collaborators (interrupt
controller, CPU scheduler, presentation layer) are represented as
emitted events or as explicit inputs.
-/

namespace N64

/-- Two-to-the-32, the register width modulus. -/
def two32 : Nat := 4294967296

/-- Signed reinterpretation of a stored 32-bit value (DataView.getInt32). -/
def toS32 (v : Nat) : Int := if v % two32 < 2147483648 then (v % two32 : Nat) else (v % two32 : Nat) - two32

namespace SP

def SP_MEM_ADDR_REG : Nat := 0x00
def SP_DRAM_ADDR_REG : Nat := 0x04
def SP_RD_LEN_REG : Nat := 0x08
def SP_WR_LEN_REG : Nat := 0x0C
def SP_STATUS_REG : Nat := 0x10
def SP_DMA_FULL_REG : Nat := 0x14
def SP_DMA_BUSY_REG : Nat := 0x18
def SP_SEMAPHORE_REG : Nat := 0x1C

def memAddrWritableBits : Nat := 0xfffffff8
def dramAddrWritableBits : Nat := 0xfffffff8
def readLenWritableBits : Nat := 0xff8ffff8
def writeLenWritableBits : Nat := 0xff8ffff8

def memAddrBankBit : Nat := 0x1000

def lenRegSkipMask : Nat := 0xfff00000
def lenRegSkipShift : Nat := 20
def lenRegCountMask : Nat := 0x000ff000
def lenRegCountShift : Nat := 12
def lenRegLenMask : Nat := 0x00000fff
def lenRegLenShift : Nat := 0

def SP_CLR_HALT : Nat := 0x0000001
def SP_SET_HALT : Nat := 0x0000002
def SP_CLR_BROKE : Nat := 0x0000004
def SP_CLR_INTR : Nat := 0x0000008
def SP_SET_INTR : Nat := 0x0000010
def SP_CLR_SSTEP : Nat := 0x0000020
def SP_SET_SSTEP : Nat := 0x0000040
def SP_CLR_INTR_BREAK : Nat := 0x0000080
def SP_SET_INTR_BREAK : Nat := 0x0000100
def SP_CLR_SIG0 : Nat := 0x0000200
def SP_SET_SIG0 : Nat := 0x0000400
def SP_CLR_SIG1 : Nat := 0x0000800
def SP_SET_SIG1 : Nat := 0x0001000
def SP_CLR_SIG2 : Nat := 0x0002000
def SP_SET_SIG2 : Nat := 0x0004000
def SP_CLR_SIG3 : Nat := 0x0008000
def SP_SET_SIG3 : Nat := 0x0010000
def SP_CLR_SIG4 : Nat := 0x0020000
def SP_SET_SIG4 : Nat := 0x0040000
def SP_CLR_SIG5 : Nat := 0x0080000
def SP_SET_SIG5 : Nat := 0x0100000
def SP_CLR_SIG6 : Nat := 0x0200000
def SP_SET_SIG6 : Nat := 0x0400000
def SP_CLR_SIG7 : Nat := 0x0800000
def SP_SET_SIG7 : Nat := 0x1000000

def SP_STATUS_HALT : Nat := 0x0001
def SP_STATUS_BROKE : Nat := 0x0002
def SP_STATUS_DMA_BUSY : Nat := 0x0004
def SP_STATUS_DMA_FULL : Nat := 0x0008
def SP_STATUS_IO_FULL : Nat := 0x0010
def SP_STATUS_SSTEP : Nat := 0x0020
def SP_STATUS_INTR_BREAK : Nat := 0x0040
def SP_STATUS_SIG0 : Nat := 0x0080
def SP_STATUS_SIG1 : Nat := 0x0100
def SP_STATUS_SIG2 : Nat := 0x0200
def SP_STATUS_SIG3 : Nat := 0x0400
def SP_STATUS_SIG4 : Nat := 0x0800
def SP_STATUS_SIG5 : Nat := 0x1000
def SP_STATUS_SIG6 : Nat := 0x2000
def SP_STATUS_SIG7 : Nat := 0x4000

/-- State of the SPReg device together with the two memories the DMA
engine touches: the SP register file (word map keyed by byte offset),
SP local memory bytes (`hardware.sp_mem.u8`) and RDRAM bytes
(`hardware.ram.u8`). -/
structure SPState where
  reg : Nat → Nat
  spmem : Nat → Nat
  ram : Nat → Nat

/-- Modelled from the spec: `MemoryRegion.getU32` returns the stored
32-bit register word (memory.js is not among the extracted sources). -/
def rget (st : SPState) (ea : Nat) : Nat := st.reg ea

/-- Modelled from the spec: `MemoryRegion.set32` stores a 32-bit value
at the given offset (modelled at word granularity; all register
accesses in the source are 4-byte aligned). -/
def rset32 (st : SPState) (ea v : Nat) : SPState :=
  { st with reg := fun a => if a = ea then v % two32 else st.reg a }

/-- Modelled from the spec: `MemoryRegion.set32masked` only updates the
bits selected by the mask, preserving the rest. -/
def rset32masked (st : SPState) (ea v mask : Nat) : SPState :=
  rset32 st ea ((rget st ea &&& (0xffffffff ^^^ mask)) ||| (v &&& mask))

/-- Modelled from the spec: `MemoryRegion.setBits32` ors the given bits
into the stored word. -/
def rsetBits32 (st : SPState) (ea bits : Nat) : SPState :=
  rset32 st ea (rget st ea ||| bits)

/-- Modelled from the spec: `MemoryRegion.clearBits32` clears the given
bits of the stored word. -/
def rclearBits32 (st : SPState) (ea bits : Nat) : SPState :=
  rset32 st ea (rget st ea &&& (0xffffffff ^^^ bits))

/-- Transfer length decode used by `spCopyFromRDRAM`/`spCopyToRDRAM`:
`(((lenReg & lenMask) >>> lenShift) | 7) + 1`. -/
def dmaLen (lenReg : Nat) : Nat :=
  (((lenReg &&& lenRegLenMask) >>> lenRegLenShift) ||| 7) + 1

/-- Repeat count decode: `((lenReg & countMask) >>> countShift) + 1`. -/
def dmaCount (lenReg : Nat) : Nat :=
  ((lenReg &&& lenRegCountMask) >>> lenRegCountShift) + 1

/-- Skip decode: `(lenReg & skipMask) >>> skipShift`. -/
def dmaSkip (lenReg : Nat) : Nat :=
  (lenReg &&& lenRegSkipMask) >>> lenRegSkipShift

/-- Pointwise update of a byte map. -/
def updMem (m : Nat → Nat) (a v : Nat) : Nat → Nat :=
  fun x => if x = a then v else m x

/-- Inner byte loop of `spCopyFromRDRAM`: copies `i` bytes from RDRAM
into SP memory, wrapping the SP offset inside the bank selected by
`bankBit`; returns the new SP memory and both advanced offsets. -/
def spCopyInner (ram : Nat → Nat) (bankBit : Nat) :
    Nat → (Nat → Nat) → Nat → Nat → ((Nat → Nat) × Nat × Nat)
  | 0, spmem, memOffset, ramOffset => (spmem, memOffset, ramOffset)
  | i + 1, spmem, memOffset, ramOffset =>
    spCopyInner ram bankBit i
      (updMem spmem (bankBit ||| (memOffset &&& 0xfff)) (ram ramOffset))
      (memOffset + 1) (ramOffset + 1)

/-- Outer repetition loop of `spCopyFromRDRAM`: after each block of
`len` bytes the RDRAM pointer advances by an extra `skip` bytes. -/
def spCopyBlocks (ram : Nat → Nat) (bankBit len skip : Nat) :
    Nat → (Nat → Nat) → Nat → Nat → ((Nat → Nat) × Nat × Nat)
  | 0, spmem, memOffset, ramOffset => (spmem, memOffset, ramOffset)
  | c + 1, spmem, memOffset, ramOffset =>
    let res := spCopyInner ram bankBit len spmem memOffset ramOffset
    spCopyBlocks ram bankBit len skip c res.1 res.2.1 (res.2.2 + skip)

/-- Inner byte loop of `spCopyToRDRAM`: copies `i` bytes from SP memory
into RDRAM. -/
def spWriteInner (spmem : Nat → Nat) (bankBit : Nat) :
    Nat → (Nat → Nat) → Nat → Nat → ((Nat → Nat) × Nat × Nat)
  | 0, ram, memOffset, ramOffset => (ram, memOffset, ramOffset)
  | i + 1, ram, memOffset, ramOffset =>
    spWriteInner spmem bankBit i
      (updMem ram ramOffset (spmem (bankBit ||| (memOffset &&& 0xfff))))
      (memOffset + 1) (ramOffset + 1)

/-- Outer repetition loop of `spCopyToRDRAM`. -/
def spWriteBlocks (spmem : Nat → Nat) (bankBit len skip : Nat) :
    Nat → (Nat → Nat) → Nat → Nat → ((Nat → Nat) × Nat × Nat)
  | 0, ram, memOffset, ramOffset => (ram, memOffset, ramOffset)
  | c + 1, ram, memOffset, ramOffset =>
    let res := spWriteInner spmem bankBit len ram memOffset ramOffset
    spWriteBlocks spmem bankBit len skip c res.1 res.2.1 (res.2.2 + skip)

/-- `SPRegDevice.spCopyFromRDRAM`: DRAM-to-SP DMA executed synchronously
on a `RD_LEN` write, including the post-transfer register update. -/
def spCopyFromRDRAM (st : SPState) : SPState :=
  let spMemAddr := rget st SP_MEM_ADDR_REG &&& 0x1fff
  let rdRamAddr := rget st SP_DRAM_ADDR_REG &&& 0x00ffffff
  let lenReg := rget st SP_RD_LEN_REG
  let len := dmaLen lenReg
  let count := dmaCount lenReg
  let skip := dmaSkip lenReg
  let bankBit := spMemAddr &&& memAddrBankBit
  let res := spCopyBlocks st.ram bankBit len skip count st.spmem spMemAddr rdRamAddr
  let st1 := { st with spmem := res.1 }
  let st2 := rset32 st1 SP_MEM_ADDR_REG (bankBit ||| (res.2.1 &&& 0xfff))
  let st3 := rset32 st2 SP_DRAM_ADDR_REG res.2.2
  let st4 := rset32masked st3 SP_RD_LEN_REG (0xff8 <<< lenRegLenShift) (lenRegCountMask ||| lenRegLenMask)
  let st5 := rset32masked st4 SP_WR_LEN_REG (0xff8 <<< lenRegLenShift) (lenRegCountMask ||| lenRegLenMask)
  let st6 := rsetBits32 st5 SP_DMA_BUSY_REG 0
  rclearBits32 st6 SP_STATUS_REG SP_STATUS_DMA_BUSY

/-- `SPRegDevice.spCopyToRDRAM`: SP-to-DRAM DMA executed synchronously
on a `WR_LEN` write, including the post-transfer register update. -/
def spCopyToRDRAM (st : SPState) : SPState :=
  let spMemAddr := rget st SP_MEM_ADDR_REG &&& 0x1fff
  let rdRamAddr := rget st SP_DRAM_ADDR_REG &&& 0x00ffffff
  let lenReg := rget st SP_WR_LEN_REG
  let len := dmaLen lenReg
  let count := dmaCount lenReg
  let skip := dmaSkip lenReg
  let bankBit := spMemAddr &&& memAddrBankBit
  let res := spWriteBlocks st.spmem bankBit len skip count st.ram spMemAddr rdRamAddr
  let st1 := { st with ram := res.1 }
  let st2 := rset32 st1 SP_MEM_ADDR_REG (bankBit ||| (res.2.1 &&& 0xfff))
  let st3 := rset32 st2 SP_DRAM_ADDR_REG res.2.2
  let st4 := rset32masked st3 SP_RD_LEN_REG (0xff8 <<< lenRegLenShift) (lenRegCountMask ||| lenRegLenMask)
  let st5 := rset32masked st4 SP_WR_LEN_REG (0xff8 <<< lenRegLenShift) (lenRegCountMask ||| lenRegLenMask)
  let st6 := rsetBits32 st5 SP_DMA_BUSY_REG 0
  rclearBits32 st6 SP_STATUS_REG SP_STATUS_DMA_BUSY

/-- The `setOrClear` helper of `SPRegDevice.spUpdateStatus`: a bit is
set when only its SET command bit is present, cleared when only its CLR
command bit is present, and untouched otherwise. -/
def setOrClear (statusBits flags clrMask setMask bit : Nat) : Nat :=
  if flags &&& setMask ≠ 0 ∧ flags &&& clrMask = 0 then statusBits ||| bit
  else if flags &&& clrMask ≠ 0 ∧ flags &&& setMask = 0 then statusBits &&& (0xffffffff ^^^ bit)
  else statusBits

/-- The HALT part of `spUpdateStatus`: both SET and CLR present is a
no-op, otherwise the HALT status bit is set or cleared. -/
def spUpdateHalt (flags s : Nat) : Nat :=
  if flags &&& SP_SET_HALT ≠ 0 ∧ flags &&& SP_CLR_HALT ≠ 0 then s
  else if flags &&& SP_SET_HALT ≠ 0 then s ||| SP_STATUS_HALT
  else if flags &&& SP_CLR_HALT ≠ 0 then s &&& (0xffffffff ^^^ SP_STATUS_HALT)
  else s

/-- The stored-STATUS-bits computation of `SPRegDevice.spUpdateStatus`
for a command word `flags`: the HALT clause followed by the
`setOrClear` chain (BROKE has no SET command bit, so its set mask is
0).  The INTR clause only talks to the interrupt controller and never
changes the stored bits, and the RSP start and stop hooks are external,
so neither appears here. -/
def spUpdateStatusBits (flags status : Nat) : Nat :=
  let s := spUpdateHalt flags status
  let s := setOrClear s flags SP_CLR_BROKE 0 SP_STATUS_BROKE
  let s := setOrClear s flags SP_CLR_SSTEP SP_SET_SSTEP SP_STATUS_SSTEP
  let s := setOrClear s flags SP_CLR_INTR_BREAK SP_SET_INTR_BREAK SP_STATUS_INTR_BREAK
  let s := setOrClear s flags SP_CLR_SIG0 SP_SET_SIG0 SP_STATUS_SIG0
  let s := setOrClear s flags SP_CLR_SIG1 SP_SET_SIG1 SP_STATUS_SIG1
  let s := setOrClear s flags SP_CLR_SIG2 SP_SET_SIG2 SP_STATUS_SIG2
  let s := setOrClear s flags SP_CLR_SIG3 SP_SET_SIG3 SP_STATUS_SIG3
  let s := setOrClear s flags SP_CLR_SIG4 SP_SET_SIG4 SP_STATUS_SIG4
  let s := setOrClear s flags SP_CLR_SIG5 SP_SET_SIG5 SP_STATUS_SIG5
  let s := setOrClear s flags SP_CLR_SIG6 SP_SET_SIG6 SP_STATUS_SIG6
  let s := setOrClear s flags SP_CLR_SIG7 SP_SET_SIG7 SP_STATUS_SIG7
  s

/-- `SPRegDevice.writeReg32`: register dispatch on a 32-bit write.
`MEM_ADDR`/`DRAM_ADDR`/`RD_LEN`/`WR_LEN` store through a writable-bits
mask, the length registers then run the DMA synchronously, `STATUS`
decodes the command word, `DMA_FULL`/`DMA_BUSY` are unwritable,
`SEMAPHORE` is forced to 0, and any other offset is stored verbatim. -/
def writeReg32 (st : SPState) (ea value : Nat) : SPState :=
  if ea = SP_MEM_ADDR_REG then rset32 st ea (value &&& memAddrWritableBits)
  else if ea = SP_DRAM_ADDR_REG then rset32 st ea (value &&& dramAddrWritableBits)
  else if ea = SP_RD_LEN_REG then spCopyFromRDRAM (rset32 st ea (value &&& readLenWritableBits))
  else if ea = SP_WR_LEN_REG then spCopyToRDRAM (rset32 st ea (value &&& writeLenWritableBits))
  else if ea = SP_STATUS_REG then rset32 st ea (spUpdateStatusBits value (rget st SP_STATUS_REG))
  else if ea = SP_DMA_FULL_REG then st
  else if ea = SP_DMA_BUSY_REG then st
  else if ea = SP_SEMAPHORE_REG then rset32 st ea 0
  else rset32 st ea value

/-- `SPRegDevice.readRegU32`: returns the stored value; a `SEMAPHORE`
read additionally forces the register to 1 afterwards. -/
def readRegU32 (st : SPState) (ea : Nat) : SPState × Nat :=
  (if ea = SP_SEMAPHORE_REG then rset32 st ea 1 else st, rget st ea)

/-- The (CLR, SET, status-bit) triples handled by the generic
`setOrClear` rule plus the bespoke HALT clause. -/
def spFlagPairs : List (Nat × Nat × Nat) :=
  [(SP_CLR_HALT, SP_SET_HALT, SP_STATUS_HALT),
   (SP_CLR_SSTEP, SP_SET_SSTEP, SP_STATUS_SSTEP),
   (SP_CLR_INTR_BREAK, SP_SET_INTR_BREAK, SP_STATUS_INTR_BREAK),
   (SP_CLR_SIG0, SP_SET_SIG0, SP_STATUS_SIG0),
   (SP_CLR_SIG1, SP_SET_SIG1, SP_STATUS_SIG1),
   (SP_CLR_SIG2, SP_SET_SIG2, SP_STATUS_SIG2),
   (SP_CLR_SIG3, SP_SET_SIG3, SP_STATUS_SIG3),
   (SP_CLR_SIG4, SP_SET_SIG4, SP_STATUS_SIG4),
   (SP_CLR_SIG5, SP_SET_SIG5, SP_STATUS_SIG5),
   (SP_CLR_SIG6, SP_SET_SIG6, SP_STATUS_SIG6),
   (SP_CLR_SIG7, SP_SET_SIG7, SP_STATUS_SIG7)]

end SP

namespace SPMem

/-- `SPMemDevice.calcEA`: SP memory wraps around modulo 0x2000. -/
def calcEA (address : Nat) : Nat := address % 0x2000

/-- Modelled from the spec: `MemoryRegion.set32` on the byte buffer
stores the four big-endian bytes of the 32-bit value at the given
offset (memory.js is not among the extracted sources). -/
def set32bytes (m : Nat → Nat) (ea v : Nat) : Nat → Nat :=
  fun a =>
    if a = ea then (v % N64.two32) >>> 24 &&& 0xff
    else if a = ea + 1 then (v % N64.two32) >>> 16 &&& 0xff
    else if a = ea + 2 then (v % N64.two32) >>> 8 &&& 0xff
    else if a = ea + 3 then (v % N64.two32) &&& 0xff
    else m a

/-- Modelled from the spec: `MemoryRegion.getU32` on the byte buffer
combines four big-endian bytes. -/
def getU32at (m : Nat → Nat) (ea : Nat) : Nat :=
  m ea * 0x1000000 + m (ea + 1) * 0x10000 + m (ea + 2) * 0x100 + m (ea + 3)

/-- `SPMemDevice.write8`: SB is broken - it writes a whole 32-bit word,
using all 32 bits of the unmasked source value shifted into the byte
lane. -/
def spMemWrite8 (m : Nat → Nat) (address value : Nat) : Nat → Nat :=
  let ea := calcEA address
  let aligned := ea &&& 0xfffffffc
  let shift := 8 * (3 - (ea &&& 3))
  set32bytes m aligned (value <<< shift)

/-- `SPMemDevice.write16`: SH is broken - it writes a whole 32-bit
word, using all 32 bits of the unmasked source value shifted into the
half-word lane. -/
def spMemWrite16 (m : Nat → Nat) (address value : Nat) : Nat → Nat :=
  let ea := calcEA address
  let aligned := ea &&& 0xfffffffc
  let shift := 8 * (2 - (ea &&& 2))
  set32bytes m aligned (value <<< shift)

/-- `SPMemDevice.write64`: SD is broken - only the upper 32 bits of the
64-bit value are written, as one 32-bit store at the effective
address. -/
def spMemWrite64 (m : Nat → Nat) (address value : Nat) : Nat → Nat :=
  let ea := calcEA address
  set32bytes m ea (value >>> 32)

end SPMem

namespace VI

def VI_STATUS_REG : Nat := 0x00
def VI_ORIGIN_REG : Nat := 0x04
def VI_WIDTH_REG : Nat := 0x08
def VI_INTR_REG : Nat := 0x0C
def VI_CURRENT_REG : Nat := 0x10
def VI_BURST_REG : Nat := 0x14
def VI_V_SYNC_REG : Nat := 0x18
def VI_H_SYNC_REG : Nat := 0x1C
def VI_LEAP_REG : Nat := 0x20
def VI_H_START_REG : Nat := 0x24
def VI_V_START_REG : Nat := 0x28
def VI_V_BURST_REG : Nat := 0x2C
def VI_X_SCALE_REG : Nat := 0x30
def VI_Y_SCALE_REG : Nat := 0x34

def VI_CONTROL_REG : Nat := VI_STATUS_REG

/-- Side effects a VI register access requests from the external
collaborators (presentation layer, host scheduler, interrupt
controller, CPU cycle scheduler). -/
inductive VIEvent where
  | presentBackBuffer (origin : Nat)
  | returnControlToSystem
  | clearVIInterrupt
  | updateCause3
  | addVblEvent (count : Nat)
deriving DecidableEq, Repr

/-- State owned by `VIRegDevice`: the register file (word map keyed by
byte offset) and the derived timing state. -/
structure VIState where
  reg : Nat → Nat
  field : Nat
  clock : Nat
  refreshRate : Nat
  countPerScanline : Nat
  countPerVbl : Nat
  curVbl : Nat
  lastVbl : Nat

/-- Modelled from the spec: `MemoryRegion.readU32` returns the stored
register word. -/
def vget (st : VIState) (ea : Nat) : Nat := st.reg ea

/-- Modelled from the spec: `MemoryRegion.write32` stores a 32-bit
word. -/
def vset32 (st : VIState) (ea v : Nat) : VIState :=
  { st with reg := fun a => if a = ea then v % N64.two32 else st.reg a }

/-- `VIRegDevice.initInterrupt`: schedule a vblank event only when none
is pending and the interrupt line is below the sync terminal count. -/
def viInitInterrupt (st : VIState) (hasVblEvent : Bool) : List VIEvent :=
  if hasVblEvent then []
  else if vget st VI_INTR_REG ≥ vget st VI_V_SYNC_REG then []
  else [VIEvent.addVblEvent st.countPerVbl]

/-- `VIRegDevice.write32`: register dispatch on a 32-bit write.
`hasVblEvent` is the external `cpu0.hasVblEvent()` input consumed by
`initInterrupt`. -/
def viWrite32 (st : VIState) (hasVblEvent : Bool) (ea value : Nat) :
    VIState × List VIEvent :=
  if ea = VI_ORIGIN_REG then
    let lastOrigin := vget st ea
    let newOrigin := value % N64.two32
    if newOrigin ≠ lastOrigin then
      (vset32 { st with lastVbl := st.curVbl } ea value,
        [VIEvent.presentBackBuffer newOrigin, VIEvent.returnControlToSystem])
    else
      (vset32 st ea value, [])
  else if ea = VI_CONTROL_REG then (vset32 st ea value, [])
  else if ea = VI_WIDTH_REG then (vset32 st ea value, [])
  else if ea = VI_INTR_REG then
    let st1 := vset32 st ea value
    (st1, viInitInterrupt st1 hasVblEvent)
  else if ea = VI_CURRENT_REG then
    (st, [VIEvent.clearVIInterrupt, VIEvent.updateCause3])
  else if ea = VI_V_SYNC_REG then
    if vget st ea ≠ value then
      let scanlines := value + 1
      let cps := st.clock / st.refreshRate / scanlines
      let st1 := vset32 { st with countPerScanline := cps,
                                  countPerVbl := scanlines * cps } ea value
      (st1, viInitInterrupt st1 hasVblEvent)
    else (st, [])
  else (vset32 st ea value, [])

/-- `VIRegDevice.readS32`: a `CURRENT` read computes a live scanline
estimate from the cycles remaining to the next vblank event (the
external `cpu0.getVblCount()` input), wraps it at the stored `V_SYNC`
value, forces bit 0 to the interlace field, writes the result back and
returns it; every other offset returns the stored value.  The
subtraction is modelled on naturals: the scheduler always hands back a
remaining-cycle count of at most `countPerVbl` (the event is scheduled
`countPerVbl` cycles ahead). -/
def viReadS32 (st : VIState) (cyclesToNextVbl : Nat) (ea : Nat) :
    VIState × Int :=
  if ea = VI_CURRENT_REG then
    let countExecuted := st.countPerVbl - cyclesToNextVbl
    let scanline := countExecuted / st.countPerScanline
    let sync := vget st VI_V_SYNC_REG
    let value := if scanline ≥ sync then scanline - sync else scanline
    let value2 := (value &&& 0xfffffffe) ||| st.field
    let st1 := vset32 st ea value2
    (st1, N64.toS32 (vget st1 ea))
  else (st, N64.toS32 (vget st ea))

/-- Number of present-back-buffer calls among a list of emitted
events. -/
def presentCount (evs : List VIEvent) : Nat :=
  (evs.filter fun e => match e with
    | VIEvent.presentBackBuffer _ => true
    | _ => false).length

/-- The live scanline estimate a `CURRENT` read computes (the claim's
formula): `countExecuted = countPerVbl - cyclesRemaining`, `scanline =
floor(countExecuted / countPerScanline)`, wrapped at the stored
`V_SYNC` value, with bit 0 forced to the interlace field. -/
def currentScanlineValue (st : VIState) (cyclesToNextVbl : Nat) : Nat :=
  let countExecuted := st.countPerVbl - cyclesToNextVbl
  let scanline := countExecuted / st.countPerScanline
  let sync := vget st VI_V_SYNC_REG
  let value := if scanline ≥ sync then scanline - sync else scanline
  (value &&& 0xfffffffe) ||| st.field

end VI

namespace SP

/-- The or of all sixteen CLR/SET command bits for `SIG0`..`SIG7`. -/
def sigCommandBits : Nat :=
  SP_CLR_SIG0 ||| SP_SET_SIG0 ||| SP_CLR_SIG1 ||| SP_SET_SIG1 |||
  SP_CLR_SIG2 ||| SP_SET_SIG2 ||| SP_CLR_SIG3 ||| SP_SET_SIG3 |||
  SP_CLR_SIG4 ||| SP_SET_SIG4 ||| SP_CLR_SIG5 ||| SP_SET_SIG5 |||
  SP_CLR_SIG6 ||| SP_SET_SIG6 ||| SP_CLR_SIG7 ||| SP_SET_SIG7

/-- Concrete SP state used to exercise the DMA register update:
`MEM_ADDR = 0`, `DRAM_ADDR = 0x1000`, every other register 0. -/
def spStateC2 : SPState where
  reg := fun a => if a = SP_DRAM_ADDR_REG then 0x1000 else 0
  spmem := fun _ => 0
  ram := fun a => a % 256

end SP

namespace VI

/-- Concrete all-zero VI state used for the `CURRENT` write check. -/
def viStateC4 : VIState where
  reg := fun _ => 0
  field := 0
  clock := 0
  refreshRate := 0
  countPerScanline := 0
  countPerVbl := 0
  curVbl := 0
  lastVbl := 0

/-- Concrete VI state with the NTSC clock and refresh rate, used for
the `V_SYNC` timing-derivation check. -/
def viStateC5 : VIState where
  reg := fun _ => 0
  field := 0
  clock := 48681812
  refreshRate := 60
  countPerScanline := 0
  countPerVbl := 0
  curVbl := 0
  lastVbl := 0

/-- Concrete VI state for the scanline-wrap scenario: `V_SYNC = 262`,
1000 cycles per scanline, 525000 cycles per vblank period. -/
def viStateC6 : VIState where
  reg := fun a => if a = VI_V_SYNC_REG then 262 else 0
  field := 0
  clock := 0
  refreshRate := 0
  countPerScanline := 1000
  countPerVbl := 525000
  curVbl := 0
  lastVbl := 0

/-- Concrete VI state for the `ORIGIN` dedup scenario. -/
def viStateC8 : VIState where
  reg := fun _ => 0
  field := 0
  clock := 0
  refreshRate := 0
  countPerScanline := 0
  countPerVbl := 0
  curVbl := 0
  lastVbl := 0

end VI

namespace SPMem

/-- All-zero SP memory byte buffer used for the broken-store checks. -/
def spMemC10 : Nat → Nat := fun _ => 0

end SPMem

theorem two32_eq : two32 = 2 ^ 32 := by norm_num [two32]

namespace SP

theorem lor_seven_mod_eight (x : Nat) : (x ||| 7) % 8 = 7 := by
  have h := Nat.and_pow_two_sub_one_eq_mod (x ||| 7) 3
  norm_num at h
  rw [← h, Nat.and_distrib_right, Nat.and_self]
  have hx : x &&& 7 < 8 := Nat.lt_succ_of_le Nat.and_le_right
  have h2 : ∀ z, z < 8 → z ||| 7 = 7 := by decide
  exact h2 _ hx

theorem dmaLen_eq (lenReg : Nat) :
    dmaLen lenReg = ((lenReg &&& 0xfff) ||| 7) + 1 := by
  simp [dmaLen, lenRegLenMask, lenRegLenShift]

theorem dmaLen_mod_eight (lenReg : Nat) : dmaLen lenReg % 8 = 0 := by
  rw [dmaLen_eq]
  have h := lor_seven_mod_eight (lenReg &&& 0xfff)
  omega

theorem dmaLen_ge_eight (lenReg : Nat) : 8 ≤ dmaLen lenReg := by
  rw [dmaLen_eq]
  have h := lor_seven_mod_eight (lenReg &&& 0xfff)
  omega

theorem dmaLen_le (lenReg : Nat) : dmaLen lenReg ≤ 4096 := by
  have h1 : lenReg &&& lenRegLenMask ≤ 0xfff := Nat.and_le_right
  have h2 : (lenReg &&& lenRegLenMask) >>> lenRegLenShift ||| 7 < 2 ^ 12 := by
    refine Nat.or_lt_two_pow ?_ (by norm_num)
    simp only [lenRegLenShift, Nat.shiftRight_zero]
    omega
  simp only [dmaLen]
  omega

theorem dmaCount_le (lenReg : Nat) : dmaCount lenReg ≤ 256 := by
  have h1 : lenReg &&& lenRegCountMask ≤ lenRegCountMask := Nat.and_le_right
  have h2 : (lenReg &&& lenRegCountMask) >>> 12 ≤ lenRegCountMask >>> 12 := by
    simp only [Nat.shiftRight_eq_div_pow]
    exact Nat.div_le_div_right h1
  have h3 : (lenRegCountMask : Nat) >>> 12 = 255 := by decide
  simp only [dmaCount, lenRegCountShift]
  omega

theorem dmaSkip_le (lenReg : Nat) : dmaSkip lenReg ≤ 0xfff := by
  have h1 : lenReg &&& lenRegSkipMask ≤ lenRegSkipMask := Nat.and_le_right
  have h2 : (lenReg &&& lenRegSkipMask) >>> 20 ≤ lenRegSkipMask >>> 20 := by
    simp only [Nat.shiftRight_eq_div_pow]
    exact Nat.div_le_div_right h1
  have h3 : (lenRegSkipMask : Nat) >>> 20 = 0xfff := by decide
  simp only [dmaSkip, lenRegSkipShift]
  omega

theorem rget_rset32 (st : SPState) (ea ea' v : Nat) :
    rget (rset32 st ea v) ea' = if ea' = ea then v % N64.two32 else rget st ea' := by
  simp [rget, rset32]

theorem rget_set_spmem (st : SPState) (mem : Nat → Nat) (ea : Nat) :
    rget { st with spmem := mem } ea = rget st ea := rfl

theorem rget_set_ram (st : SPState) (mem : Nat → Nat) (ea : Nat) :
    rget { st with ram := mem } ea = rget st ea := rfl

theorem spCopyInner_offsets (ram : Nat → Nat) (bank : Nat) :
    ∀ (i : Nat) (sp : Nat → Nat) (m r : Nat),
      (spCopyInner ram bank i sp m r).2 = (m + i, r + i) := by
  intro i
  induction i with
  | zero => intro sp m r; rfl
  | succ n ih =>
    intro sp m r
    simp only [spCopyInner, ih, Prod.mk.injEq]
    omega

theorem spCopyBlocks_offsets (ram : Nat → Nat) (bank len skip : Nat) :
    ∀ (c : Nat) (sp : Nat → Nat) (m r : Nat),
      (spCopyBlocks ram bank len skip c sp m r).2
        = (m + c * len, r + c * (len + skip)) := by
  intro c
  induction c with
  | zero => intro sp m r; simp [spCopyBlocks]
  | succ n ih =>
    intro sp m r
    simp only [spCopyBlocks, ih, spCopyInner_offsets, Prod.mk.injEq]
    constructor <;> ring

theorem spWriteInner_offsets (spmem : Nat → Nat) (bank : Nat) :
    ∀ (i : Nat) (ram : Nat → Nat) (m r : Nat),
      (spWriteInner spmem bank i ram m r).2 = (m + i, r + i) := by
  intro i
  induction i with
  | zero => intro ram m r; rfl
  | succ n ih =>
    intro ram m r
    simp only [spWriteInner, ih, Prod.mk.injEq]
    omega

theorem spWriteBlocks_offsets (spmem : Nat → Nat) (bank len skip : Nat) :
    ∀ (c : Nat) (ram : Nat → Nat) (m r : Nat),
      (spWriteBlocks spmem bank len skip c ram m r).2
        = (m + c * len, r + c * (len + skip)) := by
  intro c
  induction c with
  | zero => intro ram m r; simp [spWriteBlocks]
  | succ n ih =>
    intro ram m r
    simp only [spWriteBlocks, ih, spWriteInner_offsets, Prod.mk.injEq]
    constructor <;> ring

theorem spCopyBlocks_m (ram : Nat → Nat) (bank len skip c : Nat) (sp : Nat → Nat) (m r : Nat) :
    (spCopyBlocks ram bank len skip c sp m r).2.1 = m + c * len := by
  rw [spCopyBlocks_offsets]

theorem spCopyBlocks_r (ram : Nat → Nat) (bank len skip c : Nat) (sp : Nat → Nat) (m r : Nat) :
    (spCopyBlocks ram bank len skip c sp m r).2.2 = r + c * (len + skip) := by
  rw [spCopyBlocks_offsets]

theorem spWriteBlocks_m (spmem : Nat → Nat) (bank len skip c : Nat) (ram : Nat → Nat) (m r : Nat) :
    (spWriteBlocks spmem bank len skip c ram m r).2.1 = m + c * len := by
  rw [spWriteBlocks_offsets]

theorem spWriteBlocks_r (spmem : Nat → Nat) (bank len skip c : Nat) (ram : Nat → Nat) (m r : Nat) :
    (spWriteBlocks spmem bank len skip c ram m r).2.2 = r + c * (len + skip) := by
  rw [spWriteBlocks_offsets]

theorem or_mod_two32 {x y : Nat} (hx : x < 2 ^ 32) (hy : y < 2 ^ 32) :
    (x ||| y) % N64.two32 = x ||| y := by
  rw [two32_eq]
  exact Nat.mod_eq_of_lt (Nat.or_lt_two_pow hx hy)

/-- Register contents after `spCopyFromRDRAM`, for an arbitrary
starting state: the address registers hold the advanced offsets, both
length registers are reset to the sentinel with skip preserved, the
`DMA_BUSY` register is merely rewritten with its own value
(`setBits32` with a zero mask), and the `DMA_BUSY` status flag is
cleared. -/
theorem spCopyFromRDRAM_post (st : SPState) :
    rget (spCopyFromRDRAM st) SP_MEM_ADDR_REG
      = ((rget st SP_MEM_ADDR_REG &&& 0x1fff) &&& memAddrBankBit)
          ||| (((rget st SP_MEM_ADDR_REG &&& 0x1fff)
                + dmaCount (rget st SP_RD_LEN_REG) * dmaLen (rget st SP_RD_LEN_REG)) &&& 0xfff)
    ∧ rget (spCopyFromRDRAM st) SP_DRAM_ADDR_REG
      = (rget st SP_DRAM_ADDR_REG &&& 0x00ffffff)
          + dmaCount (rget st SP_RD_LEN_REG)
              * (dmaLen (rget st SP_RD_LEN_REG) + dmaSkip (rget st SP_RD_LEN_REG))
    ∧ rget (spCopyFromRDRAM st) SP_RD_LEN_REG
      = (rget st SP_RD_LEN_REG &&& lenRegSkipMask) ||| 0xff8
    ∧ rget (spCopyFromRDRAM st) SP_WR_LEN_REG
      = (rget st SP_WR_LEN_REG &&& lenRegSkipMask) ||| 0xff8
    ∧ rget (spCopyFromRDRAM st) SP_DMA_BUSY_REG = rget st SP_DMA_BUSY_REG % N64.two32
    ∧ rget (spCopyFromRDRAM st) SP_STATUS_REG &&& SP_STATUS_DMA_BUSY = 0 := by
  refine ⟨?_, ?_, ?_, ?_, ?_, ?_⟩ <;>
      simp [spCopyFromRDRAM, rclearBits32, rsetBits32, rset32masked, rget_rset32,
        rget_set_spmem, spCopyBlocks_m, spCopyBlocks_r,
        SP_MEM_ADDR_REG, SP_DRAM_ADDR_REG, SP_RD_LEN_REG, SP_WR_LEN_REG,
        SP_STATUS_REG, SP_DMA_BUSY_REG, memAddrBankBit, lenRegSkipMask,
        lenRegCountMask, lenRegLenMask, lenRegLenShift, SP_STATUS_DMA_BUSY]
  · exact or_mod_two32 (lt_of_le_of_lt Nat.and_le_right (by norm_num))
      (lt_of_le_of_lt Nat.and_le_right (by norm_num))
  · have hc := dmaCount_le (rget st 8)
    have hl := dmaLen_le (rget st 8)
    have hs := dmaSkip_le (rget st 8)
    have hd : rget st 4 &&& 16777215 ≤ 16777215 := Nat.and_le_right
    have hm : dmaCount (rget st 8) * (dmaLen (rget st 8) + dmaSkip (rget st 8))
        ≤ 256 * (4096 + 4095) := Nat.mul_le_mul hc (Nat.add_le_add hl hs)
    rw [two32_eq]
    exact Nat.mod_eq_of_lt (by omega)
  · rw [(by decide : (4088 : Nat) &&& 1048575 = 4088)]
    exact or_mod_two32 (lt_of_le_of_lt Nat.and_le_right (by norm_num)) (by norm_num)
  · rw [(by decide : (4088 : Nat) &&& 1048575 = 4088)]
    exact or_mod_two32 (lt_of_le_of_lt Nat.and_le_right (by norm_num)) (by norm_num)
  · have h1 : (rget st 16 &&& 4294967291) % N64.two32 = rget st 16 &&& 4294967291 := by
      rw [two32_eq]
      exact Nat.mod_eq_of_lt (lt_of_le_of_lt Nat.and_le_right (by norm_num))
    rw [h1, Nat.and_assoc, (by decide : (4294967291 : Nat) &&& 4 = 0), Nat.and_zero]

/-- Register contents after `spCopyToRDRAM`; mirror image of
`spCopyFromRDRAM_post` with the decode taken from `WR_LEN`. -/
theorem spCopyToRDRAM_post (st : SPState) :
    rget (spCopyToRDRAM st) SP_MEM_ADDR_REG
      = ((rget st SP_MEM_ADDR_REG &&& 0x1fff) &&& memAddrBankBit)
          ||| (((rget st SP_MEM_ADDR_REG &&& 0x1fff)
                + dmaCount (rget st SP_WR_LEN_REG) * dmaLen (rget st SP_WR_LEN_REG)) &&& 0xfff)
    ∧ rget (spCopyToRDRAM st) SP_DRAM_ADDR_REG
      = (rget st SP_DRAM_ADDR_REG &&& 0x00ffffff)
          + dmaCount (rget st SP_WR_LEN_REG)
              * (dmaLen (rget st SP_WR_LEN_REG) + dmaSkip (rget st SP_WR_LEN_REG))
    ∧ rget (spCopyToRDRAM st) SP_RD_LEN_REG
      = (rget st SP_RD_LEN_REG &&& lenRegSkipMask) ||| 0xff8
    ∧ rget (spCopyToRDRAM st) SP_WR_LEN_REG
      = (rget st SP_WR_LEN_REG &&& lenRegSkipMask) ||| 0xff8
    ∧ rget (spCopyToRDRAM st) SP_DMA_BUSY_REG = rget st SP_DMA_BUSY_REG % N64.two32
    ∧ rget (spCopyToRDRAM st) SP_STATUS_REG &&& SP_STATUS_DMA_BUSY = 0 := by
  refine ⟨?_, ?_, ?_, ?_, ?_, ?_⟩ <;>
      simp [spCopyToRDRAM, rclearBits32, rsetBits32, rset32masked, rget_rset32,
        rget_set_ram, spWriteBlocks_m, spWriteBlocks_r,
        SP_MEM_ADDR_REG, SP_DRAM_ADDR_REG, SP_RD_LEN_REG, SP_WR_LEN_REG,
        SP_STATUS_REG, SP_DMA_BUSY_REG, memAddrBankBit, lenRegSkipMask,
        lenRegCountMask, lenRegLenMask, lenRegLenShift, SP_STATUS_DMA_BUSY]
  · exact or_mod_two32 (lt_of_le_of_lt Nat.and_le_right (by norm_num))
      (lt_of_le_of_lt Nat.and_le_right (by norm_num))
  · have hc := dmaCount_le (rget st 12)
    have hl := dmaLen_le (rget st 12)
    have hs := dmaSkip_le (rget st 12)
    have hd : rget st 4 &&& 16777215 ≤ 16777215 := Nat.and_le_right
    have hm : dmaCount (rget st 12) * (dmaLen (rget st 12) + dmaSkip (rget st 12))
        ≤ 256 * (4096 + 4095) := Nat.mul_le_mul hc (Nat.add_le_add hl hs)
    rw [two32_eq]
    exact Nat.mod_eq_of_lt (by omega)
  · rw [(by decide : (4088 : Nat) &&& 1048575 = 4088)]
    exact or_mod_two32 (lt_of_le_of_lt Nat.and_le_right (by norm_num)) (by norm_num)
  · rw [(by decide : (4088 : Nat) &&& 1048575 = 4088)]
    exact or_mod_two32 (lt_of_le_of_lt Nat.and_le_right (by norm_num)) (by norm_num)
  · have h1 : (rget st 16 &&& 4294967291) % N64.two32 = rget st 16 &&& 4294967291 := by
      rw [two32_eq]
      exact Nat.mod_eq_of_lt (lt_of_le_of_lt Nat.and_le_right (by norm_num))
    rw [h1, Nat.and_assoc, (by decide : (4294967291 : Nat) &&& 4 = 0), Nat.and_zero]

/-- C1: for every 32-bit value written to SP `RD_LEN` or `WR_LEN`, the
triggered DMA decodes its parameters from the stored (masked) length
register as `len = ((lenReg & 0xfff) | 7) + 1` (always a multiple of 8
and at least 8), `count = ((lenReg & 0x000ff000) >>> 12) + 1`, and
`skip = (lenReg & 0xfff00000) >>> 20`. -/
theorem sp_dma_length_decode (st : SPState) (v : Nat) :
    writeReg32 st SP_RD_LEN_REG v
        = spCopyFromRDRAM (rset32 st SP_RD_LEN_REG (v &&& readLenWritableBits))
    ∧ writeReg32 st SP_WR_LEN_REG v
        = spCopyToRDRAM (rset32 st SP_WR_LEN_REG (v &&& writeLenWritableBits))
    ∧ ∀ lenReg : Nat,
        dmaLen lenReg = ((lenReg &&& 0xfff) ||| 7) + 1
        ∧ dmaLen lenReg % 8 = 0
        ∧ 8 ≤ dmaLen lenReg
        ∧ dmaCount lenReg = ((lenReg &&& 0x000ff000) >>> 12) + 1
        ∧ dmaSkip lenReg = (lenReg &&& 0xfff00000) >>> 20 := by
  refine ⟨rfl, rfl, fun lenReg => ?_⟩
  exact ⟨dmaLen_eq lenReg, dmaLen_mod_eight lenReg, dmaLen_ge_eight lenReg, rfl, rfl⟩

/-- C2 counterexample: writing `RD_LEN = 0x01000007` (stored value
`0x01000000`: len field 0, so the transfer copies 8 bytes; skip field
16; count 1) with `DRAM_ADDR = 0x1000` leaves `DRAM_ADDR = 0x1018`,
not `0x1008`.  One past the final transferred byte is
`0x1000 + 8 = 0x1008`: the stored pointer additionally includes the
trailing skip of 16 bytes, refuting the claim that `DRAM_ADDR` points
one past the final transferred byte. -/
theorem sp_dma_post_counterexample :
    rget (writeReg32 spStateC2 SP_RD_LEN_REG 0x01000007) SP_DRAM_ADDR_REG = 0x1018
    ∧ (0x1018 : Nat) ≠ 0x1008 := by
  constructor
  · decide
  · decide

/-- C2 (amended): after any DMA triggered by a write to `RD_LEN` or
`WR_LEN`, `MEM_ADDR` points one past the final transferred byte
re-wrapped through the bank mask; `DRAM_ADDR` holds the start address
plus `count * (len + skip)` — one past the final transferred byte plus
one trailing skip increment; both length registers have count 0 and
len 0xff8 with their skip sub-fields unchanged; the `DMA_BUSY` status
flag is clear; and the `DMA_BUSY` register, which the transfer leaves
unchanged (`setBits32` with a zero mask), still reads 0 whenever it
read 0 beforehand — as it does in every reachable state, since writes
to it are ignored. -/
theorem sp_dma_post_registers (st : SPState) (v : Nat)
    (hbusy : rget st SP_DMA_BUSY_REG = 0) :
    (rget (writeReg32 st SP_RD_LEN_REG v) SP_MEM_ADDR_REG
        = ((rget st SP_MEM_ADDR_REG &&& 0x1fff) &&& memAddrBankBit)
            ||| (((rget st SP_MEM_ADDR_REG &&& 0x1fff)
                  + dmaCount (v &&& readLenWritableBits) * dmaLen (v &&& readLenWritableBits)) &&& 0xfff))
    ∧ (rget (writeReg32 st SP_RD_LEN_REG v) SP_DRAM_ADDR_REG
        = (rget st SP_DRAM_ADDR_REG &&& 0x00ffffff)
            + dmaCount (v &&& readLenWritableBits)
                * (dmaLen (v &&& readLenWritableBits) + dmaSkip (v &&& readLenWritableBits)))
    ∧ (rget (writeReg32 st SP_RD_LEN_REG v) SP_RD_LEN_REG
        = ((v &&& readLenWritableBits) &&& lenRegSkipMask) ||| 0xff8)
    ∧ (rget (writeReg32 st SP_RD_LEN_REG v) SP_WR_LEN_REG
        = (rget st SP_WR_LEN_REG &&& lenRegSkipMask) ||| 0xff8)
    ∧ (rget (writeReg32 st SP_RD_LEN_REG v) SP_DMA_BUSY_REG = 0)
    ∧ (rget (writeReg32 st SP_RD_LEN_REG v) SP_STATUS_REG &&& SP_STATUS_DMA_BUSY = 0)
    ∧ (rget (writeReg32 st SP_WR_LEN_REG v) SP_MEM_ADDR_REG
        = ((rget st SP_MEM_ADDR_REG &&& 0x1fff) &&& memAddrBankBit)
            ||| (((rget st SP_MEM_ADDR_REG &&& 0x1fff)
                  + dmaCount (v &&& writeLenWritableBits) * dmaLen (v &&& writeLenWritableBits)) &&& 0xfff))
    ∧ (rget (writeReg32 st SP_WR_LEN_REG v) SP_DRAM_ADDR_REG
        = (rget st SP_DRAM_ADDR_REG &&& 0x00ffffff)
            + dmaCount (v &&& writeLenWritableBits)
                * (dmaLen (v &&& writeLenWritableBits) + dmaSkip (v &&& writeLenWritableBits)))
    ∧ (rget (writeReg32 st SP_WR_LEN_REG v) SP_RD_LEN_REG
        = (rget st SP_RD_LEN_REG &&& lenRegSkipMask) ||| 0xff8)
    ∧ (rget (writeReg32 st SP_WR_LEN_REG v) SP_WR_LEN_REG
        = ((v &&& writeLenWritableBits) &&& lenRegSkipMask) ||| 0xff8)
    ∧ (rget (writeReg32 st SP_WR_LEN_REG v) SP_DMA_BUSY_REG = 0)
    ∧ (rget (writeReg32 st SP_WR_LEN_REG v) SP_STATUS_REG &&& SP_STATUS_DMA_BUSY = 0) := by
  have hw1 : (v &&& readLenWritableBits) % N64.two32 = v &&& readLenWritableBits := by
    rw [two32_eq]
    exact Nat.mod_eq_of_lt (lt_of_le_of_lt Nat.and_le_right (by norm_num [readLenWritableBits]))
  have hw2 : (v &&& writeLenWritableBits) % N64.two32 = v &&& writeLenWritableBits := by
    rw [two32_eq]
    exact Nat.mod_eq_of_lt (lt_of_le_of_lt Nat.and_le_right (by norm_num [writeLenWritableBits]))
  simp only [SP_DMA_BUSY_REG] at hbusy
  have h1 := spCopyFromRDRAM_post (rset32 st SP_RD_LEN_REG (v &&& readLenWritableBits))
  have h2 := spCopyToRDRAM_post (rset32 st SP_WR_LEN_REG (v &&& writeLenWritableBits))
  simp [rget_rset32, SP_MEM_ADDR_REG, SP_DRAM_ADDR_REG, SP_RD_LEN_REG, SP_WR_LEN_REG,
        SP_STATUS_REG, SP_DMA_BUSY_REG, hw1, hw2, hbusy] at h1 h2
  simp [writeReg32, SP_MEM_ADDR_REG, SP_DRAM_ADDR_REG, SP_RD_LEN_REG, SP_WR_LEN_REG,
        SP_STATUS_REG, SP_DMA_BUSY_REG, SP_DMA_FULL_REG, SP_SEMAPHORE_REG]
  exact ⟨h1.1, h1.2.1, h1.2.2.1, h1.2.2.2.1, h1.2.2.2.2.1, h1.2.2.2.2.2,
         h2.1, h2.2.1, h2.2.2.1, h2.2.2.2.1, h2.2.2.2.2.1, h2.2.2.2.2.2⟩

theorem sp_dma_post_registers_witness :
    rget spStateC2 SP_DMA_BUSY_REG = 0
    ∧ rget (writeReg32 spStateC2 SP_RD_LEN_REG 0x01000007) SP_DRAM_ADDR_REG
        = (rget spStateC2 SP_DRAM_ADDR_REG &&& 0x00ffffff)
            + dmaCount (0x01000007 &&& readLenWritableBits)
                * (dmaLen (0x01000007 &&& readLenWritableBits)
                   + dmaSkip (0x01000007 &&& readLenWritableBits)) :=
  ⟨by decide, (sp_dma_post_registers spStateC2 0x01000007 (by decide)).2.1⟩

theorem setOrClear_both (s flags c m b : Nat) (hs : flags &&& m ≠ 0) (hc : flags &&& c ≠ 0) :
    setOrClear s flags c m b = s := by
  simp [setOrClear, hs, hc]

theorem setOrClear_and_untouched (s flags c m ob bit : Nat)
    (h1 : ob &&& bit = 0) (h2 : (0xffffffff ^^^ ob) &&& bit = bit) :
    setOrClear s flags c m ob &&& bit = s &&& bit := by
  unfold setOrClear
  split
  · rw [Nat.and_distrib_right, h1, Nat.or_zero]
  · split
    · rw [Nat.and_assoc, h2]
    · rfl

theorem spUpdateHalt_both (flags s : Nat) (hs : flags &&& SP_SET_HALT ≠ 0)
    (hc : flags &&& SP_CLR_HALT ≠ 0) : spUpdateHalt flags s = s := by
  simp [spUpdateHalt, hs, hc]

theorem spUpdateHalt_and_untouched (flags s bit : Nat)
    (h1 : SP_STATUS_HALT &&& bit = 0)
    (h2 : (0xffffffff ^^^ SP_STATUS_HALT) &&& bit = bit) :
    spUpdateHalt flags s &&& bit = s &&& bit := by
  unfold spUpdateHalt
  split
  · rfl
  · split
    · rw [Nat.and_distrib_right, h1, Nat.or_zero]
    · split
      · rw [Nat.and_assoc, h2]
      · rfl

theorem spBrokeClear (s flags : Nat) (hc : flags &&& SP_CLR_BROKE ≠ 0) :
    setOrClear s flags SP_CLR_BROKE 0 SP_STATUS_BROKE &&& SP_STATUS_BROKE = 0 := by
  have hz : flags &&& (0 : Nat) = 0 := Nat.and_zero flags
  simp [setOrClear, hz, hc]
  rw [Nat.and_assoc,
     (by decide : ((0xffffffff : Nat) ^^^ SP_STATUS_BROKE) &&& SP_STATUS_BROKE = 0),
     Nat.and_zero]

/-- C3: for every prior STATUS state and every flag bit (HALT, SSTEP,
INTR_BREAK, SIG0..SIG7), a command word containing both the SET and
the CLR bit for that flag leaves the flag's stored state unchanged
(whatever the other command bits do to other flags); BROKE has no SET
command bit at all, so a CLR_BROKE always clears it. -/
theorem sp_status_both_set_noop (status flags clr setm bit : Nat)
    (hmem : (clr, setm, bit) ∈ spFlagPairs)
    (hset : flags &&& setm ≠ 0) (hclr : flags &&& clr ≠ 0) :
    spUpdateStatusBits flags status &&& bit = status &&& bit
    ∧ ∀ status2 flags2 : Nat, flags2 &&& SP_CLR_BROKE ≠ 0 →
        spUpdateStatusBits flags2 status2 &&& SP_STATUS_BROKE = 0 := by
  constructor
  · fin_cases hmem <;>
    · simp only [spUpdateStatusBits]
      repeat
        first
        | rw [setOrClear_both _ _ _ _ _ hset hclr]
        | rw [spUpdateHalt_both _ _ hset hclr]
        | rw [setOrClear_and_untouched _ _ _ _ _ _ (by decide) (by decide)]
        | rw [spUpdateHalt_and_untouched _ _ _ (by decide) (by decide)]
  · intro status2 flags2 hc2
    simp only [spUpdateStatusBits]
    repeat rw [setOrClear_and_untouched _ _ _ _ _ _ (by decide) (by decide)]
    exact spBrokeClear _ _ hc2

theorem sp_status_both_set_noop_witness :
    ((SP_SET_SIG3 ||| SP_CLR_SIG3) &&& SP_SET_SIG3 ≠ 0)
    ∧ spUpdateStatusBits (SP_SET_SIG3 ||| SP_CLR_SIG3) 0x1234 &&& SP_STATUS_SIG3
        = 0x1234 &&& SP_STATUS_SIG3 :=
  ⟨by decide,
   (sp_status_both_set_noop 0x1234 (SP_SET_SIG3 ||| SP_CLR_SIG3) SP_CLR_SIG3 SP_SET_SIG3
      SP_STATUS_SIG3 (by decide) (by decide) (by decide)).1⟩

/-- C7: any write to SP `SEMAPHORE` forces the register to 0, so the
next read returns 0; every read returns the current stored value and
then forces the register to 1, so a second read after a write returns
1. -/
theorem sp_semaphore_protocol (st : SPState) (v : Nat) :
    (readRegU32 (writeReg32 st SP_SEMAPHORE_REG v) SP_SEMAPHORE_REG).2 = 0
    ∧ (readRegU32 (readRegU32 (writeReg32 st SP_SEMAPHORE_REG v) SP_SEMAPHORE_REG).1
          SP_SEMAPHORE_REG).2 = 1
    ∧ ∀ st2 : SPState,
        (readRegU32 st2 SP_SEMAPHORE_REG).2 = rget st2 SP_SEMAPHORE_REG
        ∧ rget (readRegU32 st2 SP_SEMAPHORE_REG).1 SP_SEMAPHORE_REG = 1 := by
  refine ⟨?_, ?_, fun st2 => ⟨rfl, ?_⟩⟩ <;>
    simp [writeReg32, readRegU32, rget_rset32, N64.two32,
        SP_MEM_ADDR_REG, SP_DRAM_ADDR_REG, SP_RD_LEN_REG, SP_WR_LEN_REG,
        SP_STATUS_REG, SP_DMA_FULL_REG, SP_DMA_BUSY_REG, SP_SEMAPHORE_REG]

/-- C9 counterexample: the sixteen paired CLR/SET command bits for
`SIG0`..`SIG7` occupy bit positions 9 through 24 (`0x1fffe00`), not 7
through 24 (`0x1ffff80`) — positions 7 and 8 belong to the
`INTR_BREAK` pair; and the `RD_LEN`/`WR_LEN` writable-bits mask is
`0xff8ffff8`, which matches the spec's 9-hex-digit `0xff8fffff8`
neither verbatim nor truncated to 32 bits. -/
theorem sp_bit_assignments_counterexample :
    sigCommandBits ≠ 0x1ffff80
    ∧ readLenWritableBits ≠ 0xff8fffff8 % N64.two32
    ∧ readLenWritableBits ≠ 0xff8fffff8 := by
  refine ⟨by decide, by decide, by decide⟩

/-- C9 (amended): the STATUS command word uses `CLR_HALT = 0x1` and
`SET_HALT = 0x2`; the paired CLR/SET command bits for `SIG0`..`SIG7`
occupy bit positions 9 through 24; and writes to `RD_LEN`/`WR_LEN`
keep only the bits of the `0xff8ffff8` writable-bits mask before
triggering the DMA. -/
theorem sp_bit_assignments :
    SP_CLR_HALT = 0x1
    ∧ SP_SET_HALT = 0x2
    ∧ sigCommandBits = 0x1fffe00
    ∧ readLenWritableBits = 0xff8ffff8
    ∧ writeLenWritableBits = 0xff8ffff8
    ∧ (∀ (st : SPState) (v : Nat),
        writeReg32 st SP_RD_LEN_REG v
          = spCopyFromRDRAM (rset32 st SP_RD_LEN_REG (v &&& 0xff8ffff8)))
    ∧ (∀ (st : SPState) (v : Nat),
        writeReg32 st SP_WR_LEN_REG v
          = spCopyToRDRAM (rset32 st SP_WR_LEN_REG (v &&& 0xff8ffff8))) :=
  ⟨rfl, rfl, by decide, rfl, rfl, fun st v => rfl, fun st v => rfl⟩

end SP

namespace VI

/-- C4 (amended): a write to VI `CURRENT` does not store the written
value — the register file and all derived state are left untouched —
and it always clears the VI interrupt bit and requests a CPU
interrupt-cause recompute, regardless of the written value. -/
theorem vi_current_write (st : VIState) (hv : Bool) (v : Nat) :
    viWrite32 st hv VI_CURRENT_REG v
      = (st, [VIEvent.clearVIInterrupt, VIEvent.updateCause3]) := rfl

/-- C4 counterexample: writing 5 to `CURRENT` on an all-zero VI state
leaves the stored `CURRENT` register at 0, refuting "the device stores
the written value verbatim"; the interrupt-clear side effects do
happen. -/
theorem vi_current_write_counterexample :
    (viWrite32 viStateC4 false VI_CURRENT_REG 5).1.reg VI_CURRENT_REG ≠ 5
    ∧ (viWrite32 viStateC4 false VI_CURRENT_REG 5).2
        = [VIEvent.clearVIInterrupt, VIEvent.updateCause3] := by
  refine ⟨by decide, by decide⟩

/-- C5: a `V_SYNC` write whose value differs from the stored one
recomputes `countPerScanline = floor(clock / refreshRate / (value+1))`
and `countPerVbl = (value+1) * countPerScanline` and stores the value;
writing the stored value back performs no recompute at all (the state
is returned unchanged and no event is emitted). -/
theorem vi_vsync_write (st : VIState) (hv : Bool) (v : Nat)
    (hne : v ≠ vget st VI_V_SYNC_REG) :
    (viWrite32 st hv VI_V_SYNC_REG v).1.countPerScanline
        = st.clock / st.refreshRate / (v + 1)
    ∧ (viWrite32 st hv VI_V_SYNC_REG v).1.countPerVbl
        = (v + 1) * (st.clock / st.refreshRate / (v + 1))
    ∧ (viWrite32 st hv VI_V_SYNC_REG v).1.reg VI_V_SYNC_REG = v % N64.two32
    ∧ ∀ (st2 : VIState) (hv2 : Bool),
        viWrite32 st2 hv2 VI_V_SYNC_REG (vget st2 VI_V_SYNC_REG) = (st2, []) := by
  have hne2 : vget st 24 ≠ v := fun h => hne h.symm
  refine ⟨?_, ?_, ?_, fun st2 hv2 => ?_⟩ <;>
    simp [viWrite32, vset32, hne2, VI_ORIGIN_REG, VI_CONTROL_REG, VI_STATUS_REG,
          VI_WIDTH_REG, VI_INTR_REG, VI_CURRENT_REG, VI_V_SYNC_REG]

theorem vi_vsync_write_witness :
    ((524 : Nat) ≠ vget viStateC5 VI_V_SYNC_REG)
    ∧ (viWrite32 viStateC5 false VI_V_SYNC_REG 524).1.countPerScanline
        = viStateC5.clock / viStateC5.refreshRate / (524 + 1)
    ∧ (viWrite32 viStateC5 false VI_V_SYNC_REG 524).1.countPerVbl
        = (524 + 1) * (viStateC5.clock / viStateC5.refreshRate / (524 + 1)) :=
  ⟨by decide, (vi_vsync_write viStateC5 false 524 (by decide)).1,
   (vi_vsync_write viStateC5 false 524 (by decide)).2.1⟩

/-- C6: a `CURRENT` read returns the live scanline estimate
(`currentScanlineValue`: cycles executed divided by cycles per
scanline, wrapped at `V_SYNC`, bit 0 forced to the interlace field)
and writes that same value back into the register.  The hypotheses
delimit the scheduler contract under which the source's JavaScript
arithmetic coincides with the natural-number model: the remaining
cycle count never exceeds `countPerVbl` and the timing registers have
been initialised. -/
theorem vi_current_read (st : VIState) (cycles : Nat)
    (h1 : cycles ≤ st.countPerVbl) (h2 : 0 < st.countPerScanline)
    (h3 : st.countPerVbl < 2 ^ 31) (h4 : st.field ≤ 1) :
    (viReadS32 st cycles VI_CURRENT_REG).1.reg VI_CURRENT_REG
        = currentScanlineValue st cycles
    ∧ (viReadS32 st cycles VI_CURRENT_REG).2 = (currentScanlineValue st cycles : Int) := by
  have hscan : (st.countPerVbl - cycles) / st.countPerScanline ≤ st.countPerVbl :=
    le_trans (Nat.div_le_self _ _) (Nat.sub_le _ _)
  have hval : currentScanlineValue st cycles < 2 ^ 31 := by
    simp only [currentScanlineValue]
    refine Nat.or_lt_two_pow (lt_of_le_of_lt Nat.and_le_left ?_)
      (lt_of_le_of_lt h4 (by norm_num))
    split
    · exact lt_of_le_of_lt (le_trans (Nat.sub_le _ _) hscan) h3
    · exact lt_of_le_of_lt hscan h3
  have hv32 : currentScanlineValue st cycles < N64.two32 := by
    rw [two32_eq]
    exact lt_trans hval (by norm_num)
  have hmod : currentScanlineValue st cycles % N64.two32 = currentScanlineValue st cycles :=
    Nat.mod_eq_of_lt hv32
  have hlt : currentScanlineValue st cycles < 2147483648 := lt_of_lt_of_le hval (by norm_num)
  simp only [currentScanlineValue, vget, ge_iff_le] at hmod hlt
  constructor
  · simp only [viReadS32, vset32, vget, VI_CURRENT_REG, currentScanlineValue]
    simp [hmod]
  · simp only [viReadS32, vset32, vget, N64.toS32, VI_CURRENT_REG, currentScanlineValue]
    simp [hmod, hlt]

theorem vi_current_read_witness :
    currentScanlineValue viStateC6 225000 = 38
    ∧ (viReadS32 viStateC6 225000 VI_CURRENT_REG).2
        = (currentScanlineValue viStateC6 225000 : Int) :=
  ⟨by decide,
   (vi_current_read viStateC6 225000 (by decide) (by decide) (by decide) (by decide)).2⟩

/-- C8: a write to VI `ORIGIN` presents the back buffer (and yields)
exactly when the written value differs from the stored one, and then
stores the new value; in particular a second write of the same value
presents nothing, so two consecutive writes of one value trigger at
most one present call. -/
theorem vi_origin_dedup (st : VIState) (hv : Bool) (v : Nat) (hw : v < N64.two32) :
    presentCount (viWrite32 st hv VI_ORIGIN_REG v).2
        = (if v ≠ vget st VI_ORIGIN_REG then 1 else 0)
    ∧ (viWrite32 st hv VI_ORIGIN_REG v).1.reg VI_ORIGIN_REG = v
    ∧ presentCount
        (viWrite32 (viWrite32 st hv VI_ORIGIN_REG v).1 hv VI_ORIGIN_REG v).2 = 0
    ∧ presentCount (viWrite32 st hv VI_ORIGIN_REG v).2
        + presentCount
            (viWrite32 (viWrite32 st hv VI_ORIGIN_REG v).1 hv VI_ORIGIN_REG v).2
        ≤ 1 := by
  have hmod : v % N64.two32 = v := Nat.mod_eq_of_lt hw
  by_cases hcase : v = vget st VI_ORIGIN_REG
  · subst hcase
    simp only [vget, VI_ORIGIN_REG] at hmod
    simp [viWrite32, vset32, vget, presentCount, hmod, VI_ORIGIN_REG]
  · have hcase2 : v ≠ st.reg 4 := hcase
    simp [viWrite32, vset32, vget, presentCount, hmod, hcase2, VI_ORIGIN_REG]

theorem vi_origin_dedup_witness :
    (0x100000 : Nat) < N64.two32
    ∧ presentCount (viWrite32 viStateC8 false VI_ORIGIN_REG 0x100000).2
        = (if (0x100000 : Nat) ≠ vget viStateC8 VI_ORIGIN_REG then 1 else 0)
    ∧ presentCount
        (viWrite32 (viWrite32 viStateC8 false VI_ORIGIN_REG 0x100000).1 false
          VI_ORIGIN_REG 0x100000).2 = 0 :=
  ⟨by decide, (vi_origin_dedup viStateC8 false 0x100000 (by decide)).1,
   (vi_origin_dedup viStateC8 false 0x100000 (by decide)).2.2.1⟩

end VI

namespace SPMem

theorem getU32at_set32bytes (m : Nat → Nat) (ea w : Nat) :
    getU32at (set32bytes m ea w) ea = w % N64.two32 := by
  have hb : ∀ x : Nat, x &&& 255 = x % 256 := fun x => by
    have h := Nat.and_pow_two_sub_one_eq_mod x 8
    norm_num at h
    exact h
  simp only [getU32at, set32bytes, N64.two32]
  simp [Nat.shiftRight_eq_div_pow, hb]
  omega

/-- C10: an 8-bit or 16-bit CPU write to SP memory overwrites the
whole aligned 32-bit word containing the target byte with the
unmasked 32-bit source value shifted into position, independently of
the word's previous contents (no read-modify-write); when the value
fits the access width the word is exactly the value in its lane with
every other byte zero; and a 64-bit write stores only the upper 32
bits of the value as one 32-bit store at the effective address,
leaving the bytes beyond it untouched. -/
theorem spmem_broken_writes (m : Nat → Nat) (addr v v8 v16 v64 : Nat)
    (h8 : v8 < 2 ^ 8) (h16 : v16 < 2 ^ 16) :
    getU32at (spMemWrite8 m addr v) (calcEA addr &&& 0xfffffffc)
        = (v <<< (8 * (3 - (calcEA addr &&& 3)))) % N64.two32
    ∧ getU32at (spMemWrite16 m addr v) (calcEA addr &&& 0xfffffffc)
        = (v <<< (8 * (2 - (calcEA addr &&& 2)))) % N64.two32
    ∧ getU32at (spMemWrite8 m addr v8) (calcEA addr &&& 0xfffffffc)
        = v8 * 2 ^ (8 * (3 - (calcEA addr &&& 3)))
    ∧ getU32at (spMemWrite16 m addr v16) (calcEA addr &&& 0xfffffffc)
        = v16 * 2 ^ (8 * (2 - (calcEA addr &&& 2)))
    ∧ getU32at (spMemWrite64 m addr v64) (calcEA addr) = (v64 >>> 32) % N64.two32
    ∧ spMemWrite64 m addr v64 (calcEA addr + 4) = m (calcEA addr + 4) := by
  refine ⟨getU32at_set32bytes _ _ _, getU32at_set32bytes _ _ _, ?_, ?_,
    getU32at_set32bytes _ _ _, ?_⟩
  · have hmod4 : calcEA addr &&& 3 = calcEA addr % 4 := by
      have h := Nat.and_pow_two_sub_one_eq_mod (calcEA addr) 2
      norm_num at h
      exact h
    have hsh : 8 * (3 - (calcEA addr &&& 3)) ≤ 24 := by omega
    have hle : v8 * 2 ^ (8 * (3 - (calcEA addr &&& 3))) ≤ 255 * 2 ^ 24 :=
      Nat.mul_le_mul (by omega) (Nat.pow_le_pow_right (by norm_num) hsh)
    rw [spMemWrite8, getU32at_set32bytes, Nat.shiftLeft_eq, two32_eq]
    exact Nat.mod_eq_of_lt (lt_of_le_of_lt hle (by norm_num))
  · have hand2 : calcEA addr &&& 2 ≤ 2 := Nat.and_le_right
    have hsh : 8 * (2 - (calcEA addr &&& 2)) ≤ 16 := by omega
    have hle : v16 * 2 ^ (8 * (2 - (calcEA addr &&& 2))) ≤ 65535 * 2 ^ 16 :=
      Nat.mul_le_mul (by omega) (Nat.pow_le_pow_right (by norm_num) hsh)
    rw [spMemWrite16, getU32at_set32bytes, Nat.shiftLeft_eq, two32_eq]
    exact Nat.mod_eq_of_lt (lt_of_le_of_lt hle (by norm_num))
  · have e1 : calcEA addr + 4 ≠ calcEA addr := by omega
    have e2 : calcEA addr + 4 ≠ calcEA addr + 1 := by omega
    have e3 : calcEA addr + 4 ≠ calcEA addr + 2 := by omega
    have e4 : calcEA addr + 4 ≠ calcEA addr + 3 := by omega
    simp [spMemWrite64, set32bytes, e1, e2, e3, e4]

theorem spmem_broken_writes_witness :
    (0xAB : Nat) < 2 ^ 8
    ∧ (0xABCD : Nat) < 2 ^ 16
    ∧ getU32at (spMemWrite8 spMemC10 5 0xAB) (calcEA 5 &&& 0xfffffffc)
        = 0xAB * 2 ^ (8 * (3 - (calcEA 5 &&& 3))) :=
  ⟨by decide, by decide,
   (spmem_broken_writes spMemC10 5 0 0xAB 0xABCD 0 (by decide) (by decide)).2.2.1⟩

end SPMem

end N64
